import Mathlib

/-!
Verification of the TCP step-validation protocol implemented by the
repository: the server (`src/server.py`, class `TCPServer`) and the
replay client (`src/client.py`, class `TCPClient`).

The server keeps one shared integer counter `current_step` (initially 0)
and a configured `timeout_threshold`.  Each connection handler runs a
receive loop: it decodes one JSON message per read, extracts the
`step_id` and `timeout` fields with `dict.get` (giving `None` when a
field is absent), and classifies the request.  The embedding below
models one iteration of that loop as a pure function on the server
state plus the connection-local Python variable `step_id` (which is
unbound until the first successful decode on the connection), and the
whole loop as a fold over the list of messages the peer sends.
-/

/-- Error codes, from the `ErrorCode` enum shared by server and client. -/
inductive ErrorCode
  | OK
  | TIMEOUT
  | OUT_OF_ORDER
  | UNEXPECTED_ERROR
deriving DecidableEq, Repr

/-- Numeric value of each error code, as declared in the Python enum. -/
def ErrorCode.value : ErrorCode → Nat
  | .OK => 0
  | .TIMEOUT => 1
  | .OUT_OF_ORDER => 2
  | .UNEXPECTED_ERROR => 3

/-- A response dict `{"step_id": ..., "error_code": ...}` built by the server.
The `step_id` field is `none` when the Python value is `None` (serialized
as JSON `null`). -/
structure Response where
  step_id : Option Int
  error_code : Nat
deriving DecidableEq, Repr

/-- One message received on a connection, as the decode stage of
`TCPServer.handle_client` sees it: either the bytes fail JSON decoding
(`json.loads` raises), or they decode to an object from which
`request.get` pulls an optional `step_id` and an optional `timeout`. -/
inductive Msg
  | malformed
  | valid (step_id : Option Int) (timeout : Option Int)
deriving DecidableEq, Repr

/-- The wire-observable effect of one iteration of the receive loop:
`next r` sends response `r` and loops to read the next message;
`closed r` sends `r`, breaks out of the loop and closes the socket;
`crashed` means the handler raised an unhandled exception
(no response sent, loop abandoned, the explicit close never runs). -/
inductive StepOutcome
  | next (r : Response)
  | closed (r : Response)
  | crashed
deriving DecidableEq, Repr

/-- The error code of the response an outcome sends, if a response is
sent at all. -/
def StepOutcome.sentCode : StepOutcome → Option Nat
  | .next r => some r.error_code
  | .closed r => some r.error_code
  | .crashed => none

/-- The `step_id` field of the response an outcome sends, if a response
is sent at all. -/
def StepOutcome.sentStepId : StepOutcome → Option (Option Int)
  | .next r => some r.step_id
  | .closed r => some r.step_id
  | .crashed => none

/-- Server state relevant to the protocol: the configured threshold and
the shared counter.  `TCPServer.__init__` sets `current_step = 0`. -/
structure TCPServer where
  timeout_threshold : Int
  current_step : Int
deriving DecidableEq, Repr

/-- Result of one iteration of the receive loop: the outcome on the
wire, the updated shared server state, and the connection-local Python
variable `step_id` (`none` while still unbound, `some v` once assigned,
where `v` itself is the optional value pulled from the request). -/
structure HandleResult where
  outcome : StepOutcome
  server : TCPServer
  last_step : Option (Option Int)
deriving DecidableEq, Repr

/-- One iteration of the `while True` loop of `TCPServer.handle_client`
on a received message.

From the source: on decode failure the generic `except` block builds
`{"step_id": step_id, "error_code": 3}` from the local `step_id`; if no
message was decoded yet on this connection that local is unbound and
the `except` block itself raises `UnboundLocalError`, so nothing is
sent.  On a decoded message, `step_id` and `request_timeout` are
assigned, then `request_timeout < self.timeout_threshold` is evaluated:
with `request_timeout = None` this comparison raises `TypeError`, which
the same `except` block turns into an UNEXPECTED_ERROR response (now
with `step_id` bound) followed by `break`.  Otherwise the threshold
test picks TIMEOUT, or the lock-guarded comparison
`step_id == self.current_step + 1` picks OK (assigning
`self.current_step = step_id`) or OUT_OF_ORDER (running
`self.current_step += 1`); `None == int` is `False` in Python. -/
def TCPServer.handle_message (s : TCPServer) (last : Option (Option Int)) (m : Msg) :
    HandleResult :=
  match m with
  | .malformed =>
    match last with
    | none => ⟨.crashed, s, none⟩
    | some sid => ⟨.closed ⟨sid, ErrorCode.UNEXPECTED_ERROR.value⟩, s, some sid⟩
  | .valid sid tmo =>
    match tmo with
    | none => ⟨.closed ⟨sid, ErrorCode.UNEXPECTED_ERROR.value⟩, s, some sid⟩
    | some t =>
      if t < s.timeout_threshold then
        ⟨.next ⟨sid, ErrorCode.TIMEOUT.value⟩, s, some sid⟩
      else
        match sid with
        | some k =>
          if k = s.current_step + 1 then
            ⟨.next ⟨sid, ErrorCode.OK.value⟩, { s with current_step := k }, some sid⟩
          else
            ⟨.next ⟨sid, ErrorCode.OUT_OF_ORDER.value⟩,
              { s with current_step := s.current_step + 1 }, some sid⟩
        | none =>
          ⟨.next ⟨sid, ErrorCode.OUT_OF_ORDER.value⟩,
            { s with current_step := s.current_step + 1 }, some sid⟩

/-- The per-connection receive loop of `TCPServer.handle_client`, run
over the list of messages the peer sends on one connection (the peer
closing the connection after them, which ends the loop cleanly).  The
loop keeps reading after a `next` outcome and stops after a `closed`
or `crashed` outcome.  Returns the outcome of each processed message
and the final shared server state. -/
def TCPServer.handle_client :
    TCPServer → Option (Option Int) → List Msg → List StepOutcome × TCPServer
  | s, _, [] => ([], s)
  | s, last, m :: ms =>
    let r := TCPServer.handle_message s last m
    match r.outcome with
    | .next _ =>
      let rest := TCPServer.handle_client r.server r.last_step ms
      (r.outcome :: rest.1, rest.2)
    | _ => ([r.outcome], r.server)

/-- Message list of an in-order burst: step ids `start+1, start+2, ...`
paired with the given declared timeouts. -/
def mkSeq (start : Int) : List Int → List Msg
  | [] => []
  | t :: ts => .valid (some (start + 1)) (some t) :: mkSeq (start + 1) ts

/-- Expected outcomes of an in-order burst: each step is acknowledged
with OK and its own step id. -/
def okOutcomes (start : Int) : List Int → List StepOutcome
  | [] => []
  | _ :: ts => .next ⟨some (start + 1), ErrorCode.OK.value⟩ :: okOutcomes (start + 1) ts

/-- What the client reads back on the connection of one scripted step:
the exact sentinel bytes `END`, bytes decoding to a JSON object with an
optional `error_code` field, or bytes that fail JSON decoding. -/
inductive Raw
  | sentinel
  | json_resp (step_id : Option Int) (error_code : Option Nat)
  | malformed
deriving DecidableEq, Repr

/-- What `TCPClient.send_step` does with one response: `terminated`
means the sentinel check matched and the method returned without
decoding anything; `success` logs the success line; `logged_error`
calls `log_error` with the extracted code; `failed` means an exception
was caught and logged. -/
inductive SendResult
  | terminated
  | success
  | logged_error (code : Nat)
  | failed
deriving DecidableEq, Repr

/-- `TCPClient.send_step` as a function of the raw bytes received: the
sentinel comparison `response == b"END"` returns early before any JSON
decoding; otherwise the response is decoded (a decode failure is caught
by the generic `except` block) and
`response_data.get("error_code", ErrorCode.UNEXPECTED_ERROR.value)`
defaults a missing code to 3; a nonzero code is logged as an error. -/
def TCPClient.send_step (raw : Raw) : SendResult :=
  match raw with
  | .sentinel => .terminated
  | .malformed => .failed
  | .json_resp _ ec =>
    let code := ec.getD ErrorCode.UNEXPECTED_ERROR.value
    if code ≠ ErrorCode.OK.value then .logged_error code else .success

/-- `TCPClient.run`: the `for step in self.steps` loop calls
`send_step` once per scripted step and has no `break` on any path, so
every scripted step is executed whatever the earlier responses were. -/
def TCPClient.run (raws : List Raw) : List SendResult :=
  raws.map TCPClient.send_step

/-! ## Branch lemmas for one loop iteration -/

/-- A decoded request under the threshold is answered TIMEOUT and the
state is untouched. -/
theorem handle_message_timeout (s : TCPServer) (last : Option (Option Int))
    (sid : Option Int) (t : Int) (ht : t < s.timeout_threshold) :
    TCPServer.handle_message s last (.valid sid (some t))
      = ⟨.next ⟨sid, ErrorCode.TIMEOUT.value⟩, s, some sid⟩ := by
  simp only [TCPServer.handle_message]
  rw [if_pos ht]

/-- A decoded request at or above the threshold carrying exactly the
next step id is accepted: OK and `current_step = step_id`. -/
theorem handle_message_ok (s : TCPServer) (last : Option (Option Int)) (t : Int)
    (hth : s.timeout_threshold ≤ t) :
    TCPServer.handle_message s last (.valid (some (s.current_step + 1)) (some t))
      = ⟨.next ⟨some (s.current_step + 1), ErrorCode.OK.value⟩,
          { s with current_step := s.current_step + 1 },
          some (some (s.current_step + 1))⟩ := by
  simp only [TCPServer.handle_message]
  rw [if_neg (not_lt.2 hth)]
  simp

/-- A decoded request at or above the threshold whose step id is not
the next one is rejected: OUT_OF_ORDER and `current_step` incremented
by exactly one. -/
theorem handle_message_out_of_order (s : TCPServer) (last : Option (Option Int))
    (sid : Option Int) (t : Int) (hth : s.timeout_threshold ≤ t)
    (hsid : sid ≠ some (s.current_step + 1)) :
    TCPServer.handle_message s last (.valid sid (some t))
      = ⟨.next ⟨sid, ErrorCode.OUT_OF_ORDER.value⟩,
          { s with current_step := s.current_step + 1 }, some sid⟩ := by
  simp only [TCPServer.handle_message]
  rw [if_neg (not_lt.2 hth)]
  cases sid with
  | none => rfl
  | some k =>
    have hk : ¬ k = s.current_step + 1 := fun hk => hsid (by rw [hk])
    simp only [hk, ite_false]

/-- One loop iteration never decreases the shared counter. -/
theorem handle_message_mono (s : TCPServer) (last : Option (Option Int)) (m : Msg) :
    s.current_step ≤ (TCPServer.handle_message s last m).server.current_step := by
  cases m with
  | malformed => cases last <;> exact le_rfl
  | valid sid tmo =>
    cases tmo with
    | none => exact le_rfl
    | some t =>
      simp only [TCPServer.handle_message]
      by_cases h : t < s.timeout_threshold
      · rw [if_pos h]
      · rw [if_neg h]
        cases sid with
        | none => exact le_of_lt (lt_add_one _)
        | some k =>
          by_cases hk : k = s.current_step + 1
          · simp only [hk, ite_true]
            exact le_of_lt (lt_add_one _)
          · simp only [hk, ite_false]
            exact le_of_lt (lt_add_one _)

/-- A whole connection run never decreases the shared counter. -/
theorem handle_client_mono (ms : List Msg) :
    ∀ (s : TCPServer) (last : Option (Option Int)),
      s.current_step ≤ (TCPServer.handle_client s last ms).2.current_step := by
  induction ms with
  | nil => intro s last; exact le_rfl
  | cons m ms ih =>
    intro s last
    have hm := handle_message_mono s last m
    cases ho : (TCPServer.handle_message s last m).outcome with
    | next r0 =>
      simp only [TCPServer.handle_client, ho]
      exact le_trans hm (ih _ _)
    | closed r0 =>
      simp only [TCPServer.handle_client, ho]
      exact hm
    | crashed =>
      simp only [TCPServer.handle_client, ho]
      exact hm

/-- Running an in-order burst from counter value `start` acknowledges
every step with OK and advances the counter by the length of the
burst. -/
theorem handle_client_mkSeq (th : Int) (ts : List Int) :
    ∀ (start : Int) (last : Option (Option Int)), (∀ t ∈ ts, th ≤ t) →
      TCPServer.handle_client ⟨th, start⟩ last (mkSeq start ts)
        = (okOutcomes start ts, ⟨th, start + ts.length⟩) := by
  induction ts with
  | nil =>
    intro start last _
    simp [mkSeq, okOutcomes, TCPServer.handle_client]
  | cons t ts ih =>
    intro start last h
    have hth : th ≤ t := h t (List.mem_cons_self _ _)
    have hok := handle_message_ok ⟨th, start⟩ last t hth
    rw [mkSeq, TCPServer.handle_client, hok]
    have hrest := ih (start + 1) (some (some (start + 1)))
      (fun u hu => h u (List.mem_cons_of_mem _ hu))
    simp only [okOutcomes, List.length_cons]
    rw [hrest]
    have harith : start + 1 + (ts.length : Int) = start + ((ts.length : Int) + 1) := by
      ring
    simp [harith]

/-- Every outcome produced for an in-order burst carries the OK code. -/
theorem okOutcomes_sentCode (ts : List Int) :
    ∀ (start : Int), ∀ o ∈ okOutcomes start ts,
      o.sentCode = some ErrorCode.OK.value := by
  induction ts with
  | nil => intro start o ho; simp [okOutcomes] at ho
  | cons t ts ih =>
    intro start o ho
    rw [okOutcomes] at ho
    rcases List.mem_cons.1 ho with h | h
    · rw [h]; rfl
    · exact ih (start + 1) o h

/-! ## Claim theorems -/

/-- C1: for every decoded request with `timeout >= timeout_threshold`
and `step_id` different from `current_step + 1` (duplicates,
regressions, skips and a missing `step_id` alike), the server responds
OUT_OF_ORDER and increments `current_step` by exactly one: it is not
set to the step id of the request. -/
theorem out_of_order_increments_by_one (s : TCPServer) (last : Option (Option Int))
    (sid : Option Int) (t : Int) (hth : s.timeout_threshold ≤ t)
    (hsid : sid ≠ some (s.current_step + 1)) :
    TCPServer.handle_message s last (.valid sid (some t))
      = ⟨.next ⟨sid, ErrorCode.OUT_OF_ORDER.value⟩,
          { s with current_step := s.current_step + 1 }, some sid⟩ :=
  handle_message_out_of_order s last sid t hth hsid

/-- Witness for `out_of_order_increments_by_one` at a concrete input
(threshold 5, counter 0, request step 7 with timeout 9). -/
theorem out_of_order_increments_by_one_witness :
    (TCPServer.mk 5 0).timeout_threshold ≤ 9 ∧
    (some 7 : Option Int) ≠ some ((TCPServer.mk 5 0).current_step + 1) ∧
    TCPServer.handle_message (TCPServer.mk 5 0) none (.valid (some 7) (some 9))
      = ⟨.next ⟨some 7, ErrorCode.OUT_OF_ORDER.value⟩,
          { TCPServer.mk 5 0 with current_step := (TCPServer.mk 5 0).current_step + 1 },
          some (some 7)⟩ :=
  ⟨by decide, by decide,
    out_of_order_increments_by_one (TCPServer.mk 5 0) none (some 7) 9
      (by decide) (by decide)⟩

/-- C2: a burst of requests whose step ids strictly increase from 1 and
whose timeouts are all at or above the threshold, run from the initial
counter 0, is acknowledged OK at every step and leaves `current_step`
equal to the last step id sent (the length of the burst). -/
theorem in_order_burst_all_ok (th : Int) (last : Option (Option Int)) (ts : List Int)
    (h : ∀ t ∈ ts, th ≤ t) :
    (TCPServer.handle_client ⟨th, 0⟩ last (mkSeq 0 ts)).1 = okOutcomes 0 ts ∧
    (∀ o ∈ (TCPServer.handle_client ⟨th, 0⟩ last (mkSeq 0 ts)).1,
        o.sentCode = some ErrorCode.OK.value) ∧
    (TCPServer.handle_client ⟨th, 0⟩ last (mkSeq 0 ts)).2.current_step = ts.length := by
  have hmk := handle_client_mkSeq th ts 0 last h
  rw [hmk]
  refine ⟨rfl, fun o ho => okOutcomes_sentCode ts 0 o ho, ?_⟩
  simp

/-- Witness for `in_order_burst_all_ok` on the concrete burst with
timeouts 10, 7, 5 against threshold 5. -/
theorem in_order_burst_all_ok_witness :
    (∀ t ∈ ([10, 7, 5] : List Int), (5 : Int) ≤ t) ∧
    ((TCPServer.handle_client ⟨5, 0⟩ none (mkSeq 0 [10, 7, 5])).1
        = okOutcomes 0 [10, 7, 5] ∧
      (∀ o ∈ (TCPServer.handle_client ⟨5, 0⟩ none (mkSeq 0 [10, 7, 5])).1,
        o.sentCode = some ErrorCode.OK.value) ∧
      (TCPServer.handle_client ⟨5, 0⟩ none (mkSeq 0 [10, 7, 5])).2.current_step
        = ([10, 7, 5] : List Int).length) :=
  ⟨by decide, in_order_burst_all_ok 5 none [10, 7, 5] (by decide)⟩

/-- C3: a decoded request with `timeout < timeout_threshold` gets a
TIMEOUT response whatever its step id, the shared state is untouched,
and the handler loops on to read further messages on the connection. -/
theorem timeout_leaves_state (s : TCPServer) (last : Option (Option Int))
    (sid : Option Int) (t : Int) (ht : t < s.timeout_threshold) (ms : List Msg) :
    TCPServer.handle_message s last (.valid sid (some t))
      = ⟨.next ⟨sid, ErrorCode.TIMEOUT.value⟩, s, some sid⟩ ∧
    TCPServer.handle_client s last (.valid sid (some t) :: ms)
      = (StepOutcome.next ⟨sid, ErrorCode.TIMEOUT.value⟩
          :: (TCPServer.handle_client s (some sid) ms).1,
        (TCPServer.handle_client s (some sid) ms).2) := by
  have h1 := handle_message_timeout s last sid t ht
  exact ⟨h1, by rw [TCPServer.handle_client, h1]⟩

/-- Witness for `timeout_leaves_state` at a concrete input (threshold
5, request timeout 3). -/
theorem timeout_leaves_state_witness :
    (3 : Int) < (TCPServer.mk 5 1).timeout_threshold ∧
    (TCPServer.handle_message (TCPServer.mk 5 1) none (.valid (some 2) (some 3))
      = ⟨.next ⟨some 2, ErrorCode.TIMEOUT.value⟩, TCPServer.mk 5 1, some (some 2)⟩ ∧
    TCPServer.handle_client (TCPServer.mk 5 1) none [.valid (some 2) (some 3)]
      = (StepOutcome.next ⟨some 2, ErrorCode.TIMEOUT.value⟩
          :: (TCPServer.handle_client (TCPServer.mk 5 1) (some (some 2)) []).1,
        (TCPServer.handle_client (TCPServer.mk 5 1) (some (some 2)) []).2)) :=
  ⟨by decide, timeout_leaves_state (TCPServer.mk 5 1) none (some 2) 3 (by decide) []⟩

/-- C4, counterexample: a JSON decode failure on the very first message
of a connection does not produce an UNEXPECTED_ERROR response.  The
local `step_id` referenced by the `except` block is still unbound, so
the block itself raises and the handler crashes with no response sent
at all. -/
theorem malformed_first_message_no_response :
    (TCPServer.handle_message (TCPServer.mk 5 0) none Msg.malformed).outcome
        = StepOutcome.crashed ∧
    ((TCPServer.handle_message (TCPServer.mk 5 0) none Msg.malformed).outcome).sentCode
        = none := by
  decide

/-- C4, amended: when a message failing JSON decoding arrives after at
least one decoded message on the same connection (the local `step_id`
is bound), the server responds UNEXPECTED_ERROR echoing that previously
bound step id and closes the connection, reading no further messages;
on the very first message of a connection a decode failure crashes the
handler without any response instead. -/
theorem malformed_after_bound_step_closes (s : TCPServer) (sid : Option Int)
    (ms : List Msg) :
    TCPServer.handle_client s (some sid) (Msg.malformed :: ms)
      = ([.closed ⟨sid, ErrorCode.UNEXPECTED_ERROR.value⟩], s) := by
  rw [TCPServer.handle_client]
  rfl

/-- C5: accepting a step is not idempotent.  Sending the same valid
next step twice in a row yields OK then OUT_OF_ORDER, the counter
moving up once for the acceptance and once more for the rejection. -/
theorem accept_not_idempotent (s : TCPServer) (last : Option (Option Int)) (t : Int)
    (hth : s.timeout_threshold ≤ t) :
    TCPServer.handle_client s last
        [.valid (some (s.current_step + 1)) (some t),
          .valid (some (s.current_step + 1)) (some t)]
      = ([.next ⟨some (s.current_step + 1), ErrorCode.OK.value⟩,
          .next ⟨some (s.current_step + 1), ErrorCode.OUT_OF_ORDER.value⟩],
          { s with current_step := s.current_step + 1 + 1 }) := by
  have h1 := handle_message_ok s last t hth
  have h2 := handle_message_out_of_order { s with current_step := s.current_step + 1 }
      (some (some (s.current_step + 1))) (some (s.current_step + 1)) t hth
      (by simp)
  rw [TCPServer.handle_client, h1]
  rw [TCPServer.handle_client, h2]
  rw [TCPServer.handle_client]

/-- Witness for `accept_not_idempotent` at a concrete input (threshold
5, counter 0, step 1 sent twice with timeout 10). -/
theorem accept_not_idempotent_witness :
    (TCPServer.mk 5 0).timeout_threshold ≤ 10 ∧
    TCPServer.handle_client (TCPServer.mk 5 0) none
        [.valid (some ((TCPServer.mk 5 0).current_step + 1)) (some 10),
          .valid (some ((TCPServer.mk 5 0).current_step + 1)) (some 10)]
      = ([.next ⟨some ((TCPServer.mk 5 0).current_step + 1), ErrorCode.OK.value⟩,
          .next ⟨some ((TCPServer.mk 5 0).current_step + 1),
            ErrorCode.OUT_OF_ORDER.value⟩],
          { TCPServer.mk 5 0 with
              current_step := (TCPServer.mk 5 0).current_step + 1 + 1 }) :=
  ⟨by decide, accept_not_idempotent (TCPServer.mk 5 0) none 10 (by decide)⟩

/-- C6: the shared counter is monotonically non-decreasing.  No single
loop iteration of any connection handler decreases it, and hence no
whole connection run does; since the process history is an interleaving
of such iterations (each one serialized by the lock), the counter never
decreases over the server lifetime. -/
theorem current_step_monotone (s : TCPServer) (last : Option (Option Int))
    (m : Msg) (ms : List Msg) :
    s.current_step ≤ (TCPServer.handle_message s last m).server.current_step ∧
    s.current_step ≤ (TCPServer.handle_client s last ms).2.current_step :=
  ⟨handle_message_mono s last m, handle_client_mono ms s last⟩

/-- C7: the end-to-end scenario at threshold 5 from counter 0: steps
(1,10), (2,3), (2,10), (5,10) are answered with codes 0, 1, 0, 2, each
echoing its step id, and the counter reads 1, 1, 2, 3 after the
respective requests. -/
theorem end_to_end_scenario :
    TCPServer.handle_client (TCPServer.mk 5 0) none
        [.valid (some 1) (some 10), .valid (some 2) (some 3),
          .valid (some 2) (some 10), .valid (some 5) (some 10)]
      = ([.next ⟨some 1, ErrorCode.OK.value⟩,
          .next ⟨some 2, ErrorCode.TIMEOUT.value⟩,
          .next ⟨some 2, ErrorCode.OK.value⟩,
          .next ⟨some 5, ErrorCode.OUT_OF_ORDER.value⟩],
          TCPServer.mk 5 3) ∧
    (TCPServer.handle_message (TCPServer.mk 5 0) none
        (.valid (some 1) (some 10))).server.current_step = 1 ∧
    (TCPServer.handle_message (TCPServer.mk 5 1) (some (some 1))
        (.valid (some 2) (some 3))).server.current_step = 1 ∧
    (TCPServer.handle_message (TCPServer.mk 5 1) (some (some 2))
        (.valid (some 2) (some 10))).server.current_step = 2 ∧
    (TCPServer.handle_message (TCPServer.mk 5 2) (some (some 2))
        (.valid (some 5) (some 10))).server.current_step = 3 := by
  decide

/-- C8: the sentinel does make `send_step` return before any JSON
decoding, but it does not stop the driver: the `for` loop of
`TCPClient.run` goes on to execute the remaining scripted steps, here
processing a second step after the sentinel answered the first. -/
theorem sentinel_does_not_stop_run :
    TCPClient.send_step Raw.sentinel = SendResult.terminated ∧
    TCPClient.run [Raw.sentinel, Raw.json_resp (some 2) (some ErrorCode.OK.value)]
      = [SendResult.terminated, SendResult.success] := by
  decide

/-- C9: a decoded object with no `timeout` field leaves the extracted
timeout as `None`; the comparison with the integer threshold raises, so
the handler answers UNEXPECTED_ERROR (3), not TIMEOUT, echoing the
extracted step id, closes the connection without reading the remaining
messages, and leaves `current_step` unchanged. -/
theorem missing_timeout_unexpected_error (s : TCPServer) (last : Option (Option Int))
    (sid : Option Int) (ms : List Msg) :
    TCPServer.handle_client s last (.valid sid none :: ms)
      = ([.closed ⟨sid, ErrorCode.UNEXPECTED_ERROR.value⟩], s) ∧
    ErrorCode.UNEXPECTED_ERROR.value ≠ ErrorCode.TIMEOUT.value := by
  constructor
  · rw [TCPServer.handle_client]
    rfl
  · decide

/-- C10: every decoded request gets back a response whose `step_id`
field is exactly the value extracted from the request (a missing field
echoed as `null`), in every branch of the handler. -/
theorem response_echoes_step_id (s : TCPServer) (last : Option (Option Int))
    (sid tmo : Option Int) :
    ((TCPServer.handle_message s last (.valid sid tmo)).outcome).sentStepId
      = some sid := by
  cases tmo with
  | none => rfl
  | some t =>
    simp only [TCPServer.handle_message]
    by_cases h : t < s.timeout_threshold
    · rw [if_pos h]
      rfl
    · rw [if_neg h]
      cases sid with
      | none => rfl
      | some k =>
        by_cases hk : k = s.current_step + 1
        · simp only [hk, ite_true]
          rfl
        · simp only [hk, ite_false]
          rfl
